import Mathlib

/-!
Shallow embedding of the translation unit `src/cc-test/src/cxx11_clang.cpp`:

  /* This file uses a C++11 feature only for type-checking with Apple Clang. */
  #include <memory>
  extern "C"
  void cxx11_clang() {
    std::unique_ptr<int> p;
  }

The runtime content of the unit is a single function with an empty parameter
list and `void` result whose body default-constructs a `std::unique_ptr<int>`
and lets it go out of scope.  We model:

  * `UniquePtr` — an exclusive-ownership pointer value; its stored pointer is
    an optional heap address (`none` models the null pointer).
  * `ProgState` — the observable program state: a heap of allocated `int`
    cells and the process environment (environment variables).  The probe
    touches neither, but the state is carried through the semantics so that
    frame and noninterference properties are statable.
  * `Event` — the externally visible effects a statement of the body could
    emit (allocation, deallocation, dereference).  The trace of an execution
    records them.
  * a functional big-step semantics `cxx11_clang` and an equivalent
    relational one `FnExec`, plus an exception-aware variant `cxx11_clangE`
    in which the primitives that can fail (null dereference) return `Except`.
  * the declaration-level data of lines 5–6 (`extern "C" void cxx11_clang()`):
    symbol name, mangling and linkage, as `SymbolDecl`.
-/

/-- An exclusive-ownership smart pointer (`std::unique_ptr<int>`).  The
stored pointer is an optional heap address; `none` is the null pointer. -/
structure UniquePtr where
  ptr : Option Nat
  deriving Repr, DecidableEq

/-- `std::unique_ptr<int> p;` — default construction: the stored pointer is
null and no resource is acquired. -/
def UniquePtr.default : UniquePtr := ⟨none⟩

/-- Observable program state: the heap of live `int` cells (address/value
pairs) and the process environment.  The probe owns none of it. -/
structure ProgState where
  heap : List (Nat × Int)
  env : List (String × String)
  deriving Repr, DecidableEq

/-- Externally visible effects a statement can emit. -/
inductive Event where
  | alloc (addr : Nat)
  | free (addr : Nat)
  | deref (addr : Nat)
  deriving Repr, DecidableEq

/-- Is the event a dereference? -/
def Event.isDeref : Event → Bool
  | .deref _ => true
  | _ => false

/-- Is the event a deallocation (release of an owned resource)? -/
def Event.isFree : Event → Bool
  | .free _ => true
  | _ => false

/-- Remove the cell at address `a` from the heap. -/
def ProgState.freeCell (s : ProgState) (a : Nat) : ProgState :=
  { s with heap := s.heap.filter (fun c => c.1 ≠ a) }

/-- The destructor of `std::unique_ptr<int>`: if the pointer owns a cell it
deletes it (a `free` event); a null pointer releases nothing. -/
def UniquePtr.destroy (p : UniquePtr) (s : ProgState) : ProgState × List Event :=
  match p.ptr with
  | none => (s, [])
  | some a => (s.freeCell a, [Event.free a])

/-- The local variable `p` of the body of `cxx11_clang` (line 7), as produced
by its initializer: default construction. -/
def cxx11_body_p : UniquePtr := UniquePtr.default

/-- The function `cxx11_clang` (lines 5–8).  The `Unit` argument is its empty
C++ parameter list; the state is threaded explicitly.  The body declares
`p` by default construction and returns; at scope exit the destructor of `p`
runs.  The result is the final state, the trace of emitted events and the
(`void`) return value. -/
def cxx11_clang (_args : Unit) (s : ProgState) : ProgState × List Event × Unit :=
  let p : UniquePtr := cxx11_body_p
  let (s1, tr) := p.destroy s
  (s1, tr, ())

/-- `n` successive invocations of `cxx11_clang`, threading the state and
concatenating the traces. -/
def invokeN : Nat → ProgState → ProgState × List Event
  | 0, s => (s, [])
  | n + 1, s =>
    let (s1, tr1, _) := cxx11_clang () s
    let (s2, tr2) := invokeN n s1
    (s2, tr1 ++ tr2)

/-- Big-step execution of the destructor of a `UniquePtr`, as a relation. -/
inductive DtorStep : UniquePtr → ProgState → ProgState → List Event → Prop where
  | null : ∀ s, DtorStep ⟨none⟩ s s []
  | owned : ∀ a s, DtorStep ⟨some a⟩ s (s.freeCell a) [Event.free a]

/-- Big-step execution of a call to `cxx11_clang`, as a relation: the body
introduces `p` by default construction and the destructor of `p` runs at
scope exit. -/
inductive FnExec : ProgState → ProgState → List Event → Unit → Prop where
  | call : ∀ s s1 tr, DtorStep UniquePtr.default s s1 tr → FnExec s s1 tr ()

/-- Exception-aware default construction: `std::unique_ptr`'s default
constructor is `noexcept`, so it has no failure branch. -/
def UniquePtr.mkDefaultE : Except String UniquePtr :=
  Except.ok UniquePtr.default

/-- Exception-aware dereference `*p`: reading through a null pointer, or a
pointer to a cell absent from the heap, is the failure branch.  The body of
`cxx11_clang` never invokes it. -/
def UniquePtr.derefE (p : UniquePtr) (s : ProgState) : Except String Int :=
  match p.ptr with
  | none => Except.error "null dereference"
  | some a =>
    match s.heap.lookup a with
    | none => Except.error "dangling dereference"
    | some v => Except.ok v

/-- Exception-aware destructor: destroying a `std::unique_ptr` is `noexcept`
(deleting a null pointer is a no-op, deleting an owned cell cannot throw). -/
def UniquePtr.destroyE (p : UniquePtr) (s : ProgState) :
    Except String (ProgState × List Event) :=
  Except.ok (p.destroy s)

/-- The exception-aware embedding of `cxx11_clang`: each primitive of the body
is run through `Except`. -/
def cxx11_clangE (s : ProgState) : Except String (ProgState × List Event × Unit) := do
  let p ← UniquePtr.mkDefaultE
  let (s1, tr) ← p.destroyE s
  return (s1, tr, ())

/-- Linkage of an emitted symbol. -/
inductive Linkage where
  | exported
  | internal
  deriving Repr, DecidableEq

/-- C++ name mangling for a niladic function at namespace scope (the Itanium
ABI scheme `_Z<len><name>v`), used when a declaration is *not* inside
`extern "C"`. -/
def cxxMangle (n : String) : String :=
  "_Z" ++ toString n.length ++ n ++ "v"

/-- C name mangling: the identity — the emitted symbol is the source name. -/
def cMangle (n : String) : String := n

/-- Declaration-level data of an emitted function symbol. -/
structure SymbolDecl where
  sourceName : String
  emittedName : String
  linkage : Linkage
  deriving Repr, DecidableEq

/-- The declaration of `cxx11_clang` (lines 5–6): `extern "C"` gives C
mangling (none) and, absent `static`, the symbol has external linkage. -/
def cxx11_clang_decl : SymbolDecl :=
  { sourceName := "cxx11_clang"
    emittedName := cMangle "cxx11_clang"
    linkage := Linkage.exported }

/-- The toolchain capability relevant to this unit. -/
inductive Feature where
  | cxx11UniquePtrDefaultCtor
  deriving Repr, DecidableEq

/-- The language/library features this translation unit requires of the
toolchain: default construction of `std::unique_ptr` (line 7). -/
def probeRequiredFeatures : List Feature :=
  [Feature.cxx11UniquePtrDefaultCtor]

/-- A compiler toolchain, abstracted to which features it supports. -/
structure Toolchain where
  supports : Feature → Bool

/-- Modelled from the spec: the build system's translation step for this
probe (the compiler itself is not part of the repository).  Translation
succeeds — exit status 0, no error diagnostics — exactly when the toolchain
supports every feature the unit requires; otherwise it fails with a non-zero
exit status.  This is the unit's sole failure mode. -/
def translateProbe (tc : Toolchain) : Nat :=
  if probeRequiredFeatures.all tc.supports then 0 else 1

/-- A sample program state used by closed witnesses. -/
def sampleState : ProgState :=
  { heap := [(7, (3 : Int))], env := [("PATH", "/usr/bin")] }

/-- A second sample state: same heap, different environment. -/
def sampleState2 : ProgState :=
  { heap := [(7, (3 : Int))], env := [("PATH", "/opt/bin"), ("LANG", "C")] }

section Theorems

/-- Helper: one call of `cxx11_clang` returns the state unchanged, an empty
trace and `()`. -/
theorem cxx11_clang_eq (a : Unit) (s : ProgState) :
    cxx11_clang a s = (s, [], ()) := rfl

/-- Helper: the relational semantics agrees with the functional one. -/
theorem fnExec_iff (s s1 : ProgState) (tr : List Event) (r : Unit) :
    FnExec s s1 tr r ↔ cxx11_clang () s = (s1, tr, r) := by
  constructor
  · intro h
    cases h
    rename_i hd
    have hd2 : DtorStep ⟨none⟩ s s1 tr := hd
    cases hd2
    rfl
  · intro h
    simp only [cxx11_clang_eq, Prod.mk.injEq] at h
    obtain ⟨h1, h2, -⟩ := h
    subst h1
    subst h2
    exact FnExec.call s s [] (DtorStep.null s)

/-- C1: invoking `cxx11_clang` any number of times leaves the state exactly
as it was and emits no event — it is indistinguishable from not invoking it
at all (idempotent no-op). -/
theorem cxx11_clang_noop_idempotent (n : Nat) (s : ProgState) :
    invokeN n s = (s, []) ∧ (cxx11_clang () s).1 = (invokeN 0 s).1 := by
  constructor
  · induction n with
    | zero => rfl
    | succ k ih => simpa [invokeN, cxx11_clang_eq] using ih
  · rfl

/-- C2: the local pointer `p` is default-constructed with a null stored
pointer, the execution trace contains no dereference and no release, and
destroying `p` returns any state unchanged with no event. -/
theorem cxx11_body_p_null_inert :
    cxx11_body_p = UniquePtr.default
    ∧ cxx11_body_p.ptr = none
    ∧ (∀ s : ProgState,
        ((cxx11_clang () s).2.1.all fun e => !e.isDeref && !e.isFree) = true)
    ∧ (∀ s : ProgState, cxx11_body_p.destroy s = (s, [])) :=
  ⟨rfl, rfl, fun _ => rfl, fun _ => rfl⟩

/-- C3: the parameter list of `cxx11_clang` is empty (its argument type is
the unit type, so the argument never influences the call) and its return
value is the unit value. -/
theorem cxx11_clang_unit_signature (a b : Unit) (s : ProgState) :
    cxx11_clang a s = cxx11_clang b s ∧ (cxx11_clang a s).2.2 = () := ⟨rfl, rfl⟩

/-- C4: the symbol is emitted unmangled — the emitted name is the source
name `cxx11_clang`, not the C++-mangled form — with external linkage. -/
theorem cxx11_clang_decl_unmangled_exported :
    cxx11_clang_decl.emittedName = "cxx11_clang"
    ∧ cxx11_clang_decl.emittedName = cxx11_clang_decl.sourceName
    ∧ cxx11_clang_decl.emittedName ≠ cxxMangle cxx11_clang_decl.sourceName
    ∧ cxx11_clang_decl.linkage = Linkage.exported := by
  refine ⟨rfl, rfl, ?_, rfl⟩
  decide

/-- C5: the semantics of `cxx11_clang` is deterministic — two executions from
the same state produce the same final state, trace, and result. -/
theorem fnExec_deterministic (s s1 s2 : ProgState) (t1 t2 : List Event)
    (r1 r2 : Unit) (h1 : FnExec s s1 t1 r1) (h2 : FnExec s s2 t2 r2) :
    s1 = s2 ∧ t1 = t2 ∧ r1 = r2 := by
  rw [fnExec_iff] at h1 h2
  rw [h1] at h2
  simp only [Prod.mk.injEq] at h2
  exact ⟨h2.1, h2.2.1, rfl⟩

/-- Witness for C5: two concrete executions from `sampleState`, compared by
the determinism theorem. -/
theorem fnExec_deterministic_witness :
    sampleState = sampleState ∧ ([] : List Event) = [] ∧ () = () :=
  fnExec_deterministic sampleState sampleState sampleState [] [] () ()
    (FnExec.call sampleState sampleState [] (DtorStep.null sampleState))
    (FnExec.call sampleState sampleState [] (DtorStep.null sampleState))

/-- C6: noninterference with respect to the environment — two executions from
states that agree on everything but the environment variables emit the same
trace, return the same value, and leave their heaps (still equal) and their
respective environments unchanged. -/
theorem cxx11_clang_env_noninterference (s1 s2 : ProgState)
    (h : s1.heap = s2.heap) :
    (cxx11_clang () s1).2 = (cxx11_clang () s2).2
    ∧ (cxx11_clang () s1).1.heap = (cxx11_clang () s2).1.heap
    ∧ (cxx11_clang () s1).1.env = s1.env
    ∧ (cxx11_clang () s2).1.env = s2.env := by
  exact ⟨rfl, h, rfl, rfl⟩

/-- Witness for C6: two concrete states with equal heaps and different
environments, fed to the noninterference theorem. -/
theorem cxx11_clang_env_noninterference_witness :
    (cxx11_clang () sampleState).2 = (cxx11_clang () sampleState2).2
    ∧ (cxx11_clang () sampleState).1.heap = (cxx11_clang () sampleState2).1.heap
    ∧ (cxx11_clang () sampleState).1.env = sampleState.env
    ∧ (cxx11_clang () sampleState2).1.env = sampleState2.env :=
  cxx11_clang_env_noninterference sampleState sampleState2 (by decide)

/-- C7: every invocation of `cxx11_clang` terminates — from every starting
state the big-step relation reaches a result (and it is the one the total
function computes). -/
theorem cxx11_clang_terminates (s : ProgState) :
    ∃ s1 tr r, FnExec s s1 tr r ∧ cxx11_clang () s = (s1, tr, r) :=
  ⟨s, [], (), FnExec.call s s [] (DtorStep.null s), rfl⟩

/-- C8: translation of the probe succeeds (exit status 0) exactly when the
toolchain supports default construction of `std::unique_ptr`, and fails with
a non-zero exit status when it does not; no other failure mode exists. -/
theorem translateProbe_feature_signal (tc : Toolchain) :
    (tc.supports Feature.cxx11UniquePtrDefaultCtor = true → translateProbe tc = 0)
    ∧ (tc.supports Feature.cxx11UniquePtrDefaultCtor = false →
        translateProbe tc ≠ 0) := by
  constructor
  · intro h
    simp [translateProbe, probeRequiredFeatures, h]
  · intro h
    simp [translateProbe, probeRequiredFeatures, h]

/-- Witness for C8: a toolchain supporting the feature translates the probe
with exit status 0; one lacking it does not. -/
theorem translateProbe_feature_signal_witness :
    translateProbe ⟨fun _ => true⟩ = 0 ∧ translateProbe ⟨fun _ => false⟩ ≠ 0 :=
  ⟨(translateProbe_feature_signal ⟨fun _ => true⟩).1 rfl,
   (translateProbe_feature_signal ⟨fun _ => false⟩).2 rfl⟩

/-- C9: the exception-aware embedding of `cxx11_clang` never reaches a
failure branch: from every state it returns `Except.ok`, with the same
outcome as the plain embedding. -/
theorem cxx11_clangE_never_errs (s : ProgState) :
    cxx11_clangE s = Except.ok (cxx11_clang () s) := rfl

/-- C10: full frame condition — the state after a call of `cxx11_clang`
equals the state before it, field by field: the heap and the environment are
untouched. -/
theorem cxx11_clang_frame (s : ProgState) :
    (cxx11_clang () s).1 = s
    ∧ (cxx11_clang () s).1.heap = s.heap
    ∧ (cxx11_clang () s).1.env = s.env :=
  ⟨rfl, rfl, rfl⟩

end Theorems
